import Mathlib

/-!
Shallow embedding of the `xooai` package (src/xooai/__init__.py): the Doc data
model, the Driver contract with its no-op implementation, the Executor with its
dynamic endpoint injection and dispatch, the PostWrapperAsync endpoint wrapper,
and the Flow graph builder. Python exceptions are modelled by an error type and
fallible operations return `Except`. Machine-level Python details that the
claims depend on (keyword-argument mismatches, `str.join` arity, late binding
of closure variables) are modelled by their observable outcome, with a comment
at each site pointing at the Python construct it embeds.
-/

namespace Xooai

/-- Python exceptions raised (or mentioned by the specification) around the
xooai core. `graphError` appears in the specification's error taxonomy only;
no class of that name exists anywhere in the source. -/
inductive PyErr where
  | notImplementedError
  | typeError (msg : String)
  | valueError (msg : String)
  | attributeError
  | graphError
deriving DecidableEq

/-- Result-type tag passed around as `res_type`: the concrete Doc subclass the
caller expects back (`Doc`, `Text`, `Image`). -/
inductive DocKind where
  | doc
  | text
  | image
deriving DecidableEq

/-- Placeholder for the numeric tensor representation (`numpy.ndarray` in the
source); no code path in the repository ever produces one. -/
abbrev Tensor := List Int

/-- `Doc` (pydantic model): identity `id` (a UUID generated by `uuid1` when
absent, modelled as a plain number), optional `ref`, `sig` and `value`
fields. -/
structure Doc where
  id : Nat
  ref : Option String := none
  sig : Option String := none
  value : Option String := none
deriving DecidableEq

/-- `Doc.tensor`: the body is `raise NotImplementedError`. The `abstractmethod`
decorator has no effect because `Doc`'s metaclass is pydantic's, not `ABCMeta`,
so the method is callable and always raises. -/
def Doc.tensor (_d : Doc) : Except PyErr Tensor :=
  .error .notImplementedError

/-- `Text`, derived from `Doc`. -/
structure Text extends Doc
deriving DecidableEq

/-- `Text.tensor`: the body is a TODO followed by `raise NotImplementedError`. -/
def Text.tensor (_t : Text) : Except PyErr Tensor :=
  .error .notImplementedError

/-- `Image`, derived from `Doc`. -/
structure Image extends Doc
deriving DecidableEq

/-- `Image.tensor`: the body is a TODO followed by `raise NotImplementedError`. -/
def Image.tensor (_i : Image) : Except PyErr Tensor :=
  .error .notImplementedError

/-- `Stream`: an empty class in the source. -/
structure Stream
deriving DecidableEq

/-- Shape of an attribute reachable by `getattr(self, on)` on an Executor and
then applied as `func(doc, res_type)`: both the dynamically injected endpoint
closures and locally registered handler objects are called this way by
`Executor.post`. -/
abbrev Handler := Doc → DocKind → Except PyErr (Option Doc)

/-- Behaviour of a driver as consumed by `Executor`: `add` is the outcome of
`driver.add(self)` during construction (the executor argument is never
inspected by any driver in the repository before deciding success or failure,
so it is dropped), and `post` is `driver.post(path, doc, res_type)`. -/
structure DriverM where
  add : Except PyErr Unit
  post : String → Doc → DocKind → Except PyErr (Option Doc)

/-- An `Executor` instance: its resolved `name`, its `driver`, and the
attributes reachable by `getattr(self, on)` that can be applied as
`func(doc, res_type)` — locally registered handlers and injected endpoint
closures. Ordinary methods and fields of the class are outside the model. -/
structure Executor where
  name : String
  driver : DriverM
  attrs : String → Option Handler

/-- `Driver.add`: the abstract base method body is `raise NotImplementedError`. -/
def Driver.add (_use : Executor) (_id : Option String) : Except PyErr Unit :=
  .error .notImplementedError

/-- `Driver.remove`: the abstract base method body is `raise NotImplementedError`. -/
def Driver.remove (_id : String) : Except PyErr Unit :=
  .error .notImplementedError

/-- `Driver.post(path, doc, res_type)`: the abstract base method body is
`raise NotImplementedError`. -/
def Driver.post (_path : String) (_doc : Doc) (_res_type : DocKind) :
    Except PyErr (Option Doc) :=
  .error .notImplementedError

/-- `Driver.stream`: the abstract base method body is `raise NotImplementedError`. -/
def Driver.stream (_onName : String) : Except PyErr Stream :=
  .error .notImplementedError

/-- `Driver.start`: the abstract base method body is `raise NotImplementedError`. -/
def Driver.start : Except PyErr Unit :=
  .error .notImplementedError

/-- `Driver.stop(timeout)`: the abstract base method body is
`raise NotImplementedError`. -/
def Driver.stop (_timeout : Nat) : Except PyErr Unit :=
  .error .notImplementedError

/-- `NoopDriver.add` forwards to `Driver.add`, which raises. -/
def NoopDriver.add (use : Executor) (id : Option String) : Except PyErr Unit :=
  Driver.add use id

/-- `NoopDriver.remove` forwards to `Driver.remove`, which raises. -/
def NoopDriver.remove (id : String) : Except PyErr Unit :=
  Driver.remove id

/-- `NoopDriver.post(on, doc)` forwards `super().post(on, doc)`; the base
method `Driver.post` requires three positional arguments `(path, doc,
res_type)`, so the two-argument forwarding call raises `TypeError` before the
base body can raise `NotImplementedError`. -/
def NoopDriver.post (_onName : String) (_doc : Doc) : Except PyErr (Option Doc) :=
  .error (.typeError "Driver.post missing 1 required positional argument: res_type")

/-- `NoopDriver.stream` forwards to `Driver.stream`, which raises. -/
def NoopDriver.stream (onName : String) : Except PyErr Stream :=
  Driver.stream onName

/-- `NoopDriver.start` forwards to `Driver.start`, which raises. -/
def NoopDriver.start : Except PyErr Unit :=
  Driver.start

/-- `NoopDriver.stop` forwards to `Driver.stop`, which raises. -/
def NoopDriver.stop (timeout : Nat) : Except PyErr Unit :=
  Driver.stop timeout

/-- A `NoopDriver` as seen through the `DriverM` interface: `add(self)` raises
`NotImplementedError` (via `Driver.add`), and a three-argument
`driver.post(path, doc, res_type)` call against `NoopDriver.post`, which
declares only `(on, doc)`, raises `TypeError` for passing too many
arguments. -/
def noopDriverM : DriverM where
  add := .error .notImplementedError
  post := fun _ _ _ =>
    .error (.typeError "post takes 3 positional arguments but 4 were given")

/-- Final value of the local variable `path` of `Executor.__init__` after both
injection loops: each loop iteration rebinds `path` to the current endpoint's
path, and the loop over `stream_endpoints` runs after the one over
`post_endpoints`, so the last endpoint processed wins. -/
def lastPathVar (nm : String) (post_endpoints stream_endpoints : List String) :
    Option String :=
  match stream_endpoints.getLast? with
  | some s => some ("/" ++ nm ++ "/" ++ s)
  | none =>
    match post_endpoints.getLast? with
    | some p => some ("/" ++ nm ++ "/" ++ p)
    | none => none

/-- Attribute table after `Executor.__init__`'s dynamic endpoint injection.
Each name in `post_endpoints` is bound by `setattr` to the closure
`lambda doc, res_type: self.driver.post(path, doc, res_type)`. The lambda
captures the variable `path` itself, not its value at the iteration, so at
call time every injected closure reads the final value of `path`
(`lastPathVar`). Injected attributes shadow the class-level ones; stream
closures take no `(doc, res_type)` arguments and are outside the `Handler`
shape, so only their effect on the shared `path` variable is modelled. -/
def injectAttrs (classAttrs : String → Option Handler) (nm : String)
    (drv : DriverM) (post_endpoints stream_endpoints : List String) :
    String → Option Handler :=
  fun onName =>
    if onName ∈ post_endpoints then
      match lastPathVar nm post_endpoints stream_endpoints with
      | some path => some (fun doc res_type => drv.post path doc res_type)
      | none => classAttrs onName
    else classAttrs onName

/-- `Executor.__init__`: resolves `self.name` to the given name or the class
name, installs a `NoopDriver` when no driver is given, then unconditionally
calls `self.driver.add(self)` — if that raises, construction fails and no
instance is produced. On success the endpoint closures are injected
(`injectAttrs`). The `store` argument plays no role in any claim and is
omitted. -/
def Executor.init (clsName : String) (classAttrs : String → Option Handler)
    (name : Option String) (driver : Option DriverM)
    (post_endpoints stream_endpoints : List String) : Except PyErr Executor :=
  let nm := name.getD clsName
  let drv := match driver with
    | some d => d
    | none => noopDriverM
  match drv.add with
  | .error err => .error err
  | .ok _ =>
    .ok { name := nm
          driver := drv
          attrs := injectAttrs classAttrs nm drv post_endpoints stream_endpoints }

/-- `Executor.post(on=..., doc=..., res_type=...)`: inside a
`try/except AttributeError`, it looks up `func = getattr(self, on)` and
returns `await func(doc, res_type)`; on `AttributeError` — from a failed
lookup or raised inside `func` itself, both being inside the `try` block —
it falls back to `self.driver.post('/<name>/<on>', doc, res_type)`. -/
def Executor.post (e : Executor) (onName : String) (doc : Doc) (res_type : DocKind) :
    Except PyErr (Option Doc) :=
  match e.attrs onName with
  | some f =>
    match f doc res_type with
    | .error .attributeError =>
      e.driver.post ("/" ++ e.name ++ "/" ++ onName) doc res_type
    | r => r
  | none => e.driver.post ("/" ++ e.name ++ "/" ++ onName) doc res_type

/-- `PostWrapperAsync`: wraps an endpoint handler `func(self, doc)` together
with its endpoint name, optional batch size and timeout (the decorator passes
`timeout=None` when unspecified, so it is optional here). -/
structure PostWrapperAsync where
  func : Executor → Doc → Except PyErr (Option Doc)
  onName : String
  batch_size : Option Nat := none
  timeout : Option Nat := none

/-- Semantics of one `PostWrapperAsync.__call__(exe, doc)`. The body is the
single statement `return await self.func(exe, doc)` under a `# TODO: batching`
comment: each call performs exactly one invocation of the underlying handler,
with only the doc it was given; `batch_size` and `timeout` are never read.
The second component records the argument batch of each handler invocation the
call performed — here always one invocation with the one-element batch. -/
def PostWrapperAsync.callLogged (w : PostWrapperAsync) (exe : Executor)
    (doc : Doc) : Except PyErr (Option Doc) × List (List Doc) :=
  (w.func exe doc, [[doc]])

/-- Result a caller of `PostWrapperAsync.__call__` receives. -/
def PostWrapperAsync.call (w : PostWrapperAsync) (exe : Executor) (doc : Doc) :
    Except PyErr (Option Doc) :=
  (w.callLogged exe doc).1

/-- A sequence of calls to the same wrapper: the list of results the callers
receive, paired with the concatenated log of handler-invocation batches. -/
def PostWrapperAsync.runCalls (w : PostWrapperAsync) (exe : Executor) :
    List Doc → List (Except PyErr (Option Doc)) × List (List Doc)
  | [] => ([], [])
  | d :: ds =>
    let r := w.callLogged exe d
    let rest := w.runCalls exe ds
    (r.1 :: rest.1, r.2 ++ rest.2)

/-- `_parse_path`: `i = path.find('/'); return path[:i], path[i+1:]`, modelled
for paths that contain a slash (the only shape `Flow.add` feeds it). -/
def parsePath (path : String) : String × String :=
  (path.takeWhile (fun c => c ≠ '/'),
   (path.dropWhile (fun c => c ≠ '/')).drop 1)

/-- Argument accepted by `Flow.add` for `use`: an Executor instance, a URI
string, or anything else (Python is dynamically typed). -/
inductive UseArg where
  | exec (e : Executor)
  | uri (u : String)
  | other

/-- A `Flow`: its optional name and driver, plus the `nodes` and `edges`
dictionaries (both start empty). -/
structure Flow where
  name : Option String := none
  driverF : Option DriverM := none
  nodes : List (String × Executor) := []
  edges : List (String × Option (List String)) := []

/-- `Flow.add(use, on=..., id=..., needs=..., reduce=...)` as written in the
source. Executor branch: after the `on is None` check raises `ValueError`, the
line `id = '/'.join(use.name, on)` passes two arguments to `str.join`, which
accepts exactly one iterable, so it raises `TypeError`. URI branch: `urlparse`
and `_parse_path` succeed on any string, and then
`use = Executor(name=name, gateway=url.netloc, driver=..., store=...,
post_endpoints=(endpoint,))` raises `TypeError` because `Executor.__init__`
has no parameter named `gateway`. Any other `use` raises `TypeError`
explicitly. Every branch raises before `self.nodes[id] = use` and
`self.edges[id] = needs` run, so no call ever mutates the flow; `needs` and
`reduce` are never read on any reached path. -/
def Flow.add (_fl : Flow) (use : UseArg) (onName : Option String)
    (_id : Option String) (_needs : Option (List String)) (_reduce : Bool) :
    Except PyErr Flow :=
  match use with
  | .exec _e =>
    match onName with
    | none =>
      .error (.valueError "on must be specified when use is an instance of Execcutor")
    | some _ =>
      .error (.typeError "join takes exactly one argument, 2 given")
  | .uri _u =>
      .error (.typeError "init got an unexpected keyword argument gateway")
  | .other =>
      .error (.typeError "use can only be an instance of either Executor or str")

/-- `Flow.post(doc)`: the body is the single statement
`raise NotImplementedError` — no node or edge is ever consulted and no
executor endpoint is ever invoked. -/
def Flow.post (_fl : Flow) (_doc : Doc) : Except PyErr (Option Doc) :=
  .error .notImplementedError

/-- Concrete doc used in the concrete-input checks. -/
def sampleDoc : Doc := { id := 7 }

/-- Concrete text doc used in the concrete-input checks. -/
def sampleText : Text := { id := 3 }

/-- Test-double driver that records calls: `post` succeeds and echoes the path
it was dispatched with in the result doc's `value` field; `add` succeeds. -/
def recDriver : DriverM where
  add := .ok ()
  post := fun path doc _ => .ok (some { doc with value := some path })

/-- Test-double local handler: echoes its input doc. -/
def localEcho : Handler := fun doc _ => .ok (some doc)

/-- Executor double with exactly one locally registered handler attribute,
named `embed`, over the recording driver. -/
def postExec : Executor where
  name := "E"
  driver := recDriver
  attrs := fun n => if n = "embed" then some localEcho else none

/-- The executor produced by `Executor.init` with the recording driver and
`post_endpoints = ("embed", "search")`. -/
def lateExec : Executor where
  name := "E"
  driver := recDriver
  attrs := injectAttrs (fun _ => none) "E" recDriver ["embed", "search"] []

/-- Plain executor double with no attributes, used as a graph node. -/
def execA : Executor where
  name := "A"
  driver := recDriver
  attrs := fun _ => none

/-- Second plain executor double used as a graph node. -/
def execB : Executor where
  name := "B"
  driver := recDriver
  attrs := fun _ => none

/-- A flow state whose edges form a two-node dependency cycle, written out
directly: every `Flow.add` call in the source raises before mutating the flow,
so this state cannot arise through the builder, but it is the state the claim
quantifies over. -/
def cyclicFlow : Flow where
  nodes := [("A", execA), ("B", execB)]
  edges := [("A", some ["B"]), ("B", some ["A"])]

/-- Endpoint wrapper declared with batch size 4 over a handler that echoes its
input doc. -/
def batchWrapper : PostWrapperAsync where
  func := fun _ doc => .ok (some doc)
  onName := "embed"
  batch_size := some 4
  timeout := some 300

/-- Four distinct docs submitted to the batch endpoint. -/
def fourDocs : List Doc := [{ id := 1 }, { id := 2 }, { id := 3 }, { id := 4 }]

/-- Claim C1: when the executor has a locally registered handler attribute
named `onName`, `Executor.post` invokes that handler with the given doc and
`res_type` (returning the handler's result whenever the handler itself does
not raise `AttributeError`); when no such attribute exists it instead calls
`driver.post` with path `/<name>/<onName>`, the same doc and `res_type`, and
the failed local lookup is never surfaced to the caller as an error. -/
theorem executor_post_dispatch (e : Executor) (onName : String) (doc : Doc)
    (res_type : DocKind) :
    (∀ f, e.attrs onName = some f → f doc res_type ≠ .error .attributeError →
      e.post onName doc res_type = f doc res_type) ∧
    (e.attrs onName = none →
      e.post onName doc res_type =
        e.driver.post ("/" ++ e.name ++ "/" ++ onName) doc res_type) := by
  constructor
  · intro f hf hne
    simp only [Executor.post, hf]
  · intro hn
    simp only [Executor.post, hn]

/-- Witness for C1 at concrete inputs: on `postExec`, the endpoint `embed`
carries a locally registered handler and the call returns that handler applied
to the doc; the endpoint `search` has no attribute and the call equals the
recorded driver call at path `/E/search`. -/
theorem executor_post_dispatch_witness :
    postExec.post "embed" sampleDoc DocKind.doc =
      localEcho sampleDoc DocKind.doc ∧
    postExec.post "search" sampleDoc DocKind.doc =
      postExec.driver.post ("/" ++ postExec.name ++ "/" ++ "search") sampleDoc
        DocKind.doc :=
  ⟨(executor_post_dispatch postExec "embed" sampleDoc DocKind.doc).1 localEcho
      rfl (fun h => Except.noConfusion h),
   (executor_post_dispatch postExec "search" sampleDoc DocKind.doc).2 rfl⟩

/-- Claim C2 (amended): flow execution is unimplemented — `Flow.post` fails
with `NotImplementedError` (never `GraphError`) on every flow, including any
whose edges form a cycle; its result is independent of the flow's nodes and
edges, so no node's endpoint handler is ever invoked; and `Flow.add` never
completes, so a cycle cannot even be formed through the builder. -/
theorem flow_post_unimplemented (fl fl' : Flow) (doc : Doc) :
    Flow.post fl doc = .error .notImplementedError ∧
    Flow.post fl doc = Flow.post fl' doc ∧
    (∀ use onName id needs reduce, ∃ err,
      Flow.add fl use onName id needs reduce = .error err) := by
  refine ⟨rfl, rfl, ?_⟩
  intro use onName id needs reduce
  cases use with
  | exec e => cases onName <;> exact ⟨_, rfl⟩
  | uri u => exact ⟨_, rfl⟩
  | other => exact ⟨_, rfl⟩

/-- Counterexample for C2 as stated: `cyclicFlow` carries a two-node
dependency cycle in its edges, yet executing it fails with
`NotImplementedError`, not with the `GraphError` the claim requires. -/
theorem flow_post_cycle_counterexample :
    Flow.post cyclicFlow sampleDoc = .error .notImplementedError ∧
    Flow.post cyclicFlow sampleDoc ≠ .error .graphError := by
  refine ⟨rfl, ?_⟩
  simp [Flow.post]

/-- Claim C3 (code bug): adding an Executor instance with a specified endpoint
name never succeeds — `id = '/'.join(use.name, on)` passes two arguments to
`str.join`, which takes exactly one, so every such call raises `TypeError`
instead of registering the node under `<name>/<on>`. -/
theorem flow_add_executor_join_type_error (fl : Flow) (e : Executor)
    (onName : String) (id : Option String) (needs : Option (List String))
    (reduce : Bool) :
    Flow.add fl (.exec e) (some onName) id needs reduce =
      .error (.typeError "join takes exactly one argument, 2 given") := rfl

/-- Claim C4 (code bug): adding a node by URI never succeeds — the URI is
parsed, but the proxy construction `Executor(name=..., gateway=url.netloc,
...)` passes the keyword `gateway`, which `Executor.__init__` does not accept,
so every such call raises `TypeError` and nothing is registered. -/
theorem flow_add_uri_gateway_type_error (fl : Flow) (u : String)
    (onName id : Option String) (needs : Option (List String))
    (reduce : Bool) :
    Flow.add fl (.uri u) onName id needs reduce =
      .error (.typeError "init got an unexpected keyword argument gateway") := rfl

/-- Counterexample for C5 as stated: an add call whose `needs` names the
absent node `ghost` does fail, but with the `TypeError` arising from the
`use` argument handling — not with `GraphError`. -/
theorem flow_add_unknown_needs_counterexample :
    Flow.add {} (.uri "http://127.0.0.1:8080/encoder/embed") none none
        (some ["ghost"]) false =
      .error (.typeError "init got an unexpected keyword argument gateway") ∧
    Flow.add {} (.uri "http://127.0.0.1:8080/encoder/embed") none none
        (some ["ghost"]) false ≠ .error .graphError := by
  refine ⟨rfl, ?_⟩
  simp [Flow.add]

/-- Claim C5 (amended): `Flow.add` never validates `needs` — the outcome of a
call is identical for any two `needs` values, and no call ever fails with
`GraphError` (each fails with the `ValueError` or `TypeError` raised by the
`use`/`on` argument handling before `needs` is ever read). -/
theorem flow_add_ignores_needs (fl : Flow) (use : UseArg)
    (onName id : Option String) (needs needs' : Option (List String))
    (reduce : Bool) :
    Flow.add fl use onName id needs reduce =
        Flow.add fl use onName id needs' reduce ∧
    Flow.add fl use onName id needs reduce ≠ .error .graphError := by
  cases use <;> cases onName <;> exact ⟨rfl, by simp [Flow.add]⟩

/-- Counterexample for C6 as stated: on an endpoint declared with batch size
4, four submitted calls produce four separate handler invocations, each
carrying a single-doc batch — the handler is not invoked exactly once with the
accumulated batch of 4. No clock is read anywhere in the wrapper, so the four
calls trivially fall within any timeout window. -/
theorem batch_four_calls_counterexample :
    (batchWrapper.runCalls postExec fourDocs).2 =
      [[{ id := 1 }], [{ id := 2 }], [{ id := 3 }], [{ id := 4 }]] ∧
    (batchWrapper.runCalls postExec fourDocs).2.length = 4 ∧
    (batchWrapper.runCalls postExec fourDocs).2 ≠ [fourDocs] := by
  refine ⟨rfl, rfl, ?_⟩
  decide

/-- Claim C6 (amended): batching is unimplemented — every call on a
`PostWrapperAsync` immediately invokes the underlying handler with just its
own doc, whatever `batch_size` and `timeout` hold: over any sequence of calls,
each caller receives the handler's output for its own doc and the invocation
log is one singleton batch per call. -/
theorem post_wrapper_no_batching (w : PostWrapperAsync) (exe : Executor)
    (docs : List Doc) :
    (w.runCalls exe docs).1 = docs.map (fun d => w.func exe d) ∧
    (w.runCalls exe docs).2 = docs.map (fun d => [d]) := by
  induction docs with
  | nil => exact ⟨rfl, rfl⟩
  | cons d ds ih =>
    simp [PostWrapperAsync.runCalls, PostWrapperAsync.callLogged, ih.1, ih.2]

/-- Counterexample for C7 as stated: on a concrete Text doc, `tensor()` does
not return a (cached or any) value — the call fails with
`NotImplementedError`. -/
theorem text_tensor_counterexample :
    sampleText.tensor = .error .notImplementedError := rfl

/-- Claim C7 (amended): no materialization or caching exists — `tensor()` on
every `Doc`, `Text` and `Image` instance fails with `NotImplementedError` on
every call (so, trivially, any two calls on the same instance have identical
outcomes, but no value is ever produced or cached). -/
theorem tensor_always_unimplemented :
    (∀ d : Doc, d.tensor = .error .notImplementedError) ∧
    (∀ t : Text, t.tensor = .error .notImplementedError) ∧
    (∀ i : Image, i.tensor = .error .notImplementedError) :=
  ⟨fun _ => rfl, fun _ => rfl, fun _ => rfl⟩

/-- Claim C8 (code bug at `post`): of the no-op driver's six operations,
`add`, `remove`, `stream`, `start` and `stop` fail with `NotImplementedError`
as claimed, but `post` fails with `TypeError` — it forwards only `(on, doc)`
to the base `Driver.post`, which requires `(path, doc, res_type)` — so the
claim's universal statement fails at `post`. -/
theorem noop_driver_ops :
    (∀ use id, NoopDriver.add use id = .error .notImplementedError) ∧
    (∀ id, NoopDriver.remove id = .error .notImplementedError) ∧
    (∀ onName, NoopDriver.stream onName = .error .notImplementedError) ∧
    NoopDriver.start = .error .notImplementedError ∧
    (∀ t, NoopDriver.stop t = .error .notImplementedError) ∧
    (∀ onName doc, NoopDriver.post onName doc =
        .error (.typeError
          "Driver.post missing 1 required positional argument: res_type") ∧
      NoopDriver.post onName doc ≠ .error .notImplementedError) :=
  ⟨fun _ _ => rfl, fun _ => rfl, fun _ => rfl, rfl, fun _ => rfl,
   fun _ _ => ⟨rfl, by simp [NoopDriver.post]⟩⟩

/-- Claim C9: constructing an Executor without an explicit driver always
fails with `NotImplementedError` — the constructor installs a `NoopDriver` as
the default and unconditionally calls `driver.add(self)` before returning, so
no Executor instance is ever produced without supplying a working driver. -/
theorem executor_init_default_driver_raises (clsName : String)
    (classAttrs : String → Option Handler) (name : Option String)
    (peps seps : List String) :
    Executor.init clsName classAttrs name none peps seps =
      .error .notImplementedError := rfl

/-- Claim C10: when an Executor is constructed with an explicit driver and a
list of post endpoints, every dynamically injected endpoint closure reads the
same captured loop variable `path`, so invoking any of them dispatches
`driver.post` with the path of the last endpoint processed by the constructor
loops, not the path matching the invoked endpoint's own name. -/
theorem executor_init_shared_last_path (clsName : String)
    (classAttrs : String → Option Handler) (name : Option String)
    (drv : DriverM) (peps : List String) (e : Executor)
    (onName lastEp : String)
    (hadd : drv.add = .ok ())
    (hinit : Executor.init clsName classAttrs name (some drv) peps [] = .ok e)
    (hon : onName ∈ peps)
    (hlast : peps.getLast? = some lastEp) :
    ∃ h, e.attrs onName = some h ∧
      ∀ doc res_type, h doc res_type =
        drv.post ("/" ++ name.getD clsName ++ "/" ++ lastEp) doc res_type := by
  simp only [Executor.init, hadd, Except.ok.injEq] at hinit
  subst hinit
  have ha : injectAttrs classAttrs (name.getD clsName) drv peps [] onName =
      some (fun doc res_type =>
        drv.post ("/" ++ name.getD clsName ++ "/" ++ lastEp) doc res_type) := by
    simp [injectAttrs, lastPathVar, hon, hlast]
  exact ⟨_, ha, fun doc res_type => rfl⟩

/-- Witness for C10 at a concrete input: `lateExec` is built from
`Executor.init` with endpoints `embed` then `search`; the closure injected for
`embed` dispatches the driver at path `/E/search`, the path of the last
endpoint. -/
theorem executor_init_shared_last_path_witness :
    ∃ h, lateExec.attrs "embed" = some h ∧
      ∀ doc res_type, h doc res_type =
        recDriver.post ("/" ++ "E" ++ "/" ++ "search") doc res_type :=
  executor_init_shared_last_path "E" (fun _ => none) none recDriver
    ["embed", "search"] lateExec "embed" "search" rfl rfl (by decide)
    (by decide)

end Xooai
